import Mathlib

/-!
# Verification of the erc3-js client SDK contract layer

Shallow embedding of the erc3-js repository's request/response contract layer:
the JSON data model, the shared HTTP request executor with its structured error
translation (`_request` in `src/client.js`, `src/store/client.js`,
`src/demo/client.js`), the facade methods whose outgoing request bodies the
specification pins down, the tool dispatchers, and the pagination loop of the
store example.

HTTP itself is modelled by passing the transport outcome (parsed JSON body, or
a transport/parse failure message) as an explicit argument; every facade method
is embedded as the pure function from its arguments to the outgoing request
(endpoint path suffix plus JSON body) it issues.
-/

/-- A JSON value as produced by `response.json()` or built for a request body.
Numbers are modelled as integers (all numeric fields the claims touch are
integral). -/
inductive Json where
  | null : Json
  | bool : Bool → Json
  | num : Int → Json
  | str : String → Json
  | arr : List Json → Json
  | obj : List (String × Json) → Json
deriving Inhabited

/-- A JavaScript value that may also be `undefined` (e.g. the result of reading
an absent object property): `none` is `undefined`, `some j` is the JSON value. -/
abbrev JsVal := Option Json

/-- JavaScript property access `o.k`: the field's value, or `undefined` when
the field is absent or the receiver is not an object. -/
def getField (j : Json) (k : String) : JsVal :=
  match j with
  | .obj fields => fields.lookup k
  | _ => none

/-- JavaScript truthiness of a JSON value: `null`, `false`, `0` and `""` are
falsy; every array and object is truthy. -/
def truthy : Json → Bool
  | .null => false
  | .bool b => b
  | .num n => n != 0
  | .str s => !s.isEmpty
  | .arr _ => true
  | .obj _ => true

/-- JavaScript truthiness extended to possibly-`undefined` values: `undefined`
is falsy. -/
def truthyV : JsVal → Bool
  | none => false
  | some j => truthy j

/-- JavaScript `a || b` on a possibly-`undefined` left operand: the left value
when truthy, otherwise `b`. -/
def jsOr (a : JsVal) (b : Json) : Json :=
  match a with
  | some j => if truthy j then j else b
  | none => b

/-- JavaScript `ToNumber` coercion, restricted to the values the model can
represent (`none` is `NaN`): `null` is `0`, booleans are `0`/`1`, a string is
parsed as an integer (empty/whitespace is `0`, non-numeric is `NaN`); object
coercion is not modelled and yields `NaN` (statuses in scope are numeric). -/
def toNumber : Json → Option Int
  | .null => some 0
  | .bool b => some (if b then 1 else 0)
  | .num n => some n
  | .str s => if s.trim.isEmpty then some 0 else s.trim.toInt?
  | .arr _ => none
  | .obj _ => none

/-- JavaScript `v >= n` for a possibly-`undefined` left operand against a
number literal: numeric comparison, false when the coercion yields `NaN`. -/
def jsGE (v : JsVal) (n : Int) : Bool :=
  match v with
  | none => false
  | some j =>
    match toNumber j with
    | some m => m ≥ n
    | none => false

/-- JavaScript `String(v)` / template-literal coercion of a JSON value:
strings unchanged, `null` is `"null"`, numbers and booleans rendered, array
elements joined with commas (with `null` elements rendered empty, as
`Array.prototype.join` does), plain objects render as `"[object Object]"`. -/
def jsToString : Json → String
  | .null => "null"
  | .bool b => if b then "true" else "false"
  | .num n => toString n
  | .str s => s
  | .arr xs => String.intercalate "," (xs.map fun x =>
      match x with
      | .null => ""
      | .bool b => if b then "true" else "false"
      | .num n => toString n
      | .str s => s
      | .arr _ => "[object Array]"
      | .obj _ => "[object Object]")
  | .obj _ => "[object Object]"

/-- JavaScript `String(v)` where `v` may be `undefined`. -/
def jsToStringV : JsVal → String
  | none => "undefined"
  | some j => jsToString j

/-- One escaped character of a JSON string literal, as `JSON.stringify`
emits it. -/
def escapeChar (c : Char) : String :=
  if c = '"' then "\\\""
  else if c = '\\' then "\\\\"
  else if c = '\n' then "\\n"
  else if c = '\t' then "\\t"
  else if c = '\r' then "\\r"
  else String.singleton c

/-- A JSON string literal with quotes and escapes, as `JSON.stringify`
emits it. -/
def escapeString (s : String) : String :=
  "\"" ++ String.join (s.toList.map escapeChar) ++ "\""

mutual
/-- Embeds `JSON.stringify` on a JSON value. -/
def stringify : Json → String
  | .null => "null"
  | .bool b => if b then "true" else "false"
  | .num n => toString n
  | .str s => escapeString s
  | .arr xs => "[" ++ stringifyList xs ++ "]"
  | .obj fs => "\x7b" ++ stringifyFields fs ++ "\x7d"

/-- Comma-separated serialization of an array's elements. -/
def stringifyList : List Json → String
  | [] => ""
  | [x] => stringify x
  | x :: xs => stringify x ++ "," ++ stringifyList xs

/-- Comma-separated serialization of an object's fields. -/
def stringifyFields : List (String × Json) → String
  | [] => ""
  | [(k, v)] => escapeString k ++ ":" ++ stringify v
  | (k, v) :: fs => escapeString k ++ ":" ++ stringify v ++ "," ++ stringifyFields fs
end

/-- The `ApiException` class of `src/common.js`: message, status, code, detail.
`message` is the value passed to the `Error` constructor; `status` and `code`
may be `undefined` when the server body omits them; `detail` is always a string
(the serialized body, or the original failure message). -/
structure ApiException where
  message : Json
  status : JsVal
  code : JsVal
  detail : String
deriving Inhabited

/-- An error thrown inside a facade method: either the structured
`ApiException`, or a plain JavaScript `Error` carrying only a message. -/
inductive JsError where
  | api : ApiException → JsError
  | plain : String → JsError
deriving Inhabited

/-- The outcome of the HTTP transport for one request: a successfully parsed
JSON response body, or a failure (network error or non-JSON body) with the
thrown error's message. -/
inductive TransportResult where
  | success : Json → TransportResult
  | failure : String → TransportResult
deriving Inhabited

/-- The API-error guard of `_request`:
`result.status && result.status >= 400`. -/
def apiErrorCond (result : Json) : Bool :=
  truthyV (getField result "status") && jsGE (getField result "status") 400

/-- The `ApiException` thrown by `_request` on an API error:
`new ApiException(result.error || 'API Error', result.status, result.code,
JSON.stringify(result))`. -/
def mkApiError (result : Json) : ApiException :=
  { message := jsOr (getField result "error") (.str "API Error")
    status := getField result "status"
    code := getField result "code"
    detail := stringify result }

/-- The `try` block of `_request`: a transport failure is a plain error thrown
by `fetch` / `response.json()`; on a parsed body, throw the `ApiException` when
the guard holds, otherwise return the body unchanged. -/
def requestTry (t : TransportResult) : Except JsError Json :=
  match t with
  | .failure msg => .error (.plain msg)
  | .success result =>
    if apiErrorCond result then .error (.api (mkApiError result))
    else .ok result

/-- The `catch` block of `_request`: an `ApiException` is rethrown unchanged;
any other error is wrapped as
`new ApiException('Request failed: ' + error.message, 500, 'REQUEST_FAILED',
error.message)`. -/
def requestCatch (e : JsError) : JsError :=
  match e with
  | .api exc => .api exc
  | .plain msg =>
    .api { message := .str ("Request failed: " ++ msg)
           status := some (.num 500)
           code := some (.str "REQUEST_FAILED")
           detail := msg }

/-- The `_request` method shared (verbatim, up to the URL prefix) by the three
facade clients: run the try block, route any thrown error through the catch
block. -/
def requestCommon (t : TransportResult) : Except JsError Json :=
  match requestTry t with
  | .ok r => .ok r
  | .error e => .error (requestCatch e)

/-- Embeds `ERC3._request` of `src/client.js`: response processing (identical across
facades). -/
def ERC3.request (t : TransportResult) : Except JsError Json := requestCommon t

/-- Embeds `StoreClient._request` of `src/store/client.js`: response processing
(identical across facades). -/
def StoreClient.request (t : TransportResult) : Except JsError Json := requestCommon t

/-- Embeds `DemoClient._request` of `src/demo/client.js`: response processing
(identical across facades). -/
def DemoClient.request (t : TransportResult) : Except JsError Json := requestCommon t

/-- The URL built by `ERC3._request`: `baseUrl + endpoint`. -/
def coreUrl (baseUrl endpoint : String) : String := baseUrl ++ endpoint

/-- The URL built by `StoreClient._request`:
`baseUrl + '/store/' + taskId + endpoint`. -/
def storeUrl (baseUrl taskId endpoint : String) : String :=
  baseUrl ++ "/store/" ++ taskId ++ endpoint

/-- The URL built by `DemoClient._request`:
`baseUrl + '/demo/' + taskId + endpoint`. -/
def demoUrl (baseUrl taskId endpoint : String) : String :=
  baseUrl ++ "/demo/" ++ taskId ++ endpoint

/-- The outgoing request a facade method hands to `_request`: the endpoint
path suffix and the JSON body. -/
structure OutRequest where
  endpoint : String
  body : Json
deriving Inhabited

/-- Builds a request-body object from fields whose values may be `undefined`;
`JSON.stringify` omits `undefined`-valued fields from the wire body. -/
def mkBody (fields : List (String × JsVal)) : Json :=
  .obj (fields.filterMap fun kv => kv.2.map fun v => (kv.1, v))

/-- The task-ID resolution shared by `startTask`, `completeTask` and the
client factories: `typeof taskOrId === 'string' ? taskOrId : taskOrId.task_id`. -/
def resolveTaskId (taskOrId : Json) : JsVal :=
  match taskOrId with
  | .str s => some (.str s)
  | j => getField j "task_id"

/-- Embeds `ERC3.startTask`: resolves the task ID and posts
`{task_id: taskId}` to `/tasks/start`. -/
def startTask (taskOrId : Json) : OutRequest :=
  { endpoint := "/tasks/start"
    body := mkBody [("task_id", resolveTaskId taskOrId)] }

/-- Embeds `ERC3.completeTask`: resolves the task ID and posts
`{task_id: taskId}` to `/tasks/complete`. -/
def completeTask (taskOrId : Json) : OutRequest :=
  { endpoint := "/tasks/complete"
    body := mkBody [("task_id", resolveTaskId taskOrId)] }

/-- Embeds `ERC3.viewTask`: posts `{task_id}` to `/tasks/view`, adding a `since`
field only when `since !== null` (`none` models the `null` default of an
omitted argument). -/
def viewTask (taskId : Json) (since : Option Json) : OutRequest :=
  { endpoint := "/tasks/view"
    body := .obj (("task_id", taskId) ::
      match since with
      | some s => [("since", s)]
      | none => []) }

/-- The caller-supplied `usage` object of `logLLM`; each token field may be
absent (`none`) or a number. -/
structure Usage where
  prompt_tokens : Option Int := none
  completion_tokens : Option Int := none
  input_tokens : Option Int := none
  output_tokens : Option Int := none
  total_tokens : Option Int := none
deriving Inhabited

/-- JavaScript `a || b` on a possibly-absent numeric field: `0` and absent are
falsy. -/
def jsOrNum (a : Option Int) (b : Int) : Int :=
  match a with
  | some n => if n != 0 then n else b
  | none => b

/-- Embeds `ERC3.logLLM`: posts to `/tasks/log` the body
`{task_id, model, usage: {prompt_tokens: usage.prompt_tokens ||
usage.input_tokens || 0, completion_tokens: usage.completion_tokens ||
usage.output_tokens || 0, total_tokens: usage.total_tokens || 0},
duration_sec: durationSec}`. -/
def logLLM (taskId model : String) (usage : Usage) (durationSec : Json) : OutRequest :=
  { endpoint := "/tasks/log"
    body := .obj
      [("task_id", .str taskId),
       ("model", .str model),
       ("usage", .obj
         [("prompt_tokens", .num (jsOrNum usage.prompt_tokens (jsOrNum usage.input_tokens 0))),
          ("completion_tokens", .num (jsOrNum usage.completion_tokens (jsOrNum usage.output_tokens 0))),
          ("total_tokens", .num (jsOrNum usage.total_tokens 0))]),
       ("duration_sec", durationSec)] }

/-- The `ERC3` client configuration (`this.apiKey`, `this.baseUrl`); the
constructor never reassigns these and no method writes them. -/
structure ERC3Config where
  apiKey : String
  baseUrl : String
deriving Inhabited

/-- JavaScript `a || b` on a possibly-absent string (`""` and absent are
falsy). -/
def jsOrStr (a : Option String) (b : String) : String :=
  match a with
  | some s => if !s.isEmpty then s else b
  | none => b

/-- JavaScript `a || b` keeping a possibly-`undefined` string result:
`options.apiKey || process.env.ERC3_API_KEY`. -/
def jsOrStrV (a b : Option String) : Option String :=
  match a with
  | some s => if !s.isEmpty then some s else b
  | none => b

/-- The default base URL of the `ERC3` constructor. -/
def defaultBaseUrl : String := "https://erc.timetoact-group.at"

/-- The `ERC3` constructor: `this.apiKey = options.apiKey ||
process.env.ERC3_API_KEY; this.baseUrl = options.baseUrl || <default>;
if (!this.apiKey) throw new Error(...)`. `envKey` is the value of
`ERC3_API_KEY` in the environment (`none` when unset). -/
def mkERC3 (optApiKey optBaseUrl envKey : Option String) : Except String ERC3Config :=
  let apiKey := jsOrStrV optApiKey envKey
  let baseUrl := jsOrStr optBaseUrl defaultBaseUrl
  if !truthyV (apiKey.map Json.str) then
    .error "API key is required. Set ERC3_API_KEY env var or pass apiKey option."
  else
    .ok { apiKey := apiKey.getD "", baseUrl := baseUrl }

/-- Embeds `StoreClient.listProducts({offset = 0, limit = 20} = {})`: posts
`{tool: '/products/list', offset, limit}` to `/products/list`; the
destructuring defaults apply when a field is `undefined`. -/
def listProducts (offset limit : JsVal) : OutRequest :=
  { endpoint := "/products/list"
    body := .obj
      [("tool", .str "/products/list"),
       ("offset", offset.getD (.num 0)),
       ("limit", limit.getD (.num 20))] }

/-- Embeds `StoreClient.viewBasket()`: posts `{tool: '/basket/view'}` to
`/basket/view`. -/
def viewBasket : OutRequest :=
  { endpoint := "/basket/view"
    body := .obj [("tool", .str "/basket/view")] }

/-- Embeds `StoreClient.addToBasket(sku, quantity = 1)`: posts
`{tool: '/basket/add', sku, quantity}` to `/basket/add`. -/
def addToBasket (sku : JsVal) (quantity : JsVal) : OutRequest :=
  { endpoint := "/basket/add"
    body := mkBody
      [("tool", some (.str "/basket/add")),
       ("sku", sku),
       ("quantity", some (quantity.getD (.num 1)))] }

/-- Embeds `StoreClient.removeFromBasket(sku, quantity = 1)`: posts
`{tool: '/basket/remove', sku, quantity}` to `/basket/remove`. -/
def removeFromBasket (sku : JsVal) (quantity : JsVal) : OutRequest :=
  { endpoint := "/basket/remove"
    body := mkBody
      [("tool", some (.str "/basket/remove")),
       ("sku", sku),
       ("quantity", some (quantity.getD (.num 1)))] }

/-- Embeds `StoreClient.checkout()`: posts `{tool: '/basket/checkout'}` to
`/basket/checkout`. -/
def checkout : OutRequest :=
  { endpoint := "/basket/checkout"
    body := .obj [("tool", .str "/basket/checkout")] }

/-- Embeds `StoreClient.applyCoupon(coupon)`: posts `{tool: '/coupon/apply', coupon}`
to `/coupon/apply`. -/
def applyCoupon (coupon : JsVal) : OutRequest :=
  { endpoint := "/coupon/apply"
    body := mkBody
      [("tool", some (.str "/coupon/apply")),
       ("coupon", coupon)] }

/-- Embeds `StoreClient.removeCoupon()`: posts `{tool: '/coupon/remove'}` to
`/coupon/remove`. -/
def removeCoupon : OutRequest :=
  { endpoint := "/coupon/remove"
    body := .obj [("tool", .str "/coupon/remove")] }

/-- Embeds `StoreClient.dispatch(request)`: switches on `request.tool`, forwarding to
the matching method with the fields taken from `request`; an unrecognized tool
throws a plain `Error` (never an `ApiException`) and issues no request. -/
def StoreClient.dispatch (request : Json) : Except String OutRequest :=
  match getField request "tool" with
  | some (.str "/products/list") =>
    .ok (listProducts (getField request "offset") (getField request "limit"))
  | some (.str "/basket/view") => .ok viewBasket
  | some (.str "/basket/add") =>
    .ok (addToBasket (getField request "sku") (getField request "quantity"))
  | some (.str "/basket/remove") =>
    .ok (removeFromBasket (getField request "sku") (getField request "quantity"))
  | some (.str "/basket/checkout") => .ok checkout
  | some (.str "/coupon/apply") =>
    .ok (applyCoupon (getField request "coupon"))
  | some (.str "/coupon/remove") => .ok removeCoupon
  | tool => .error ("Unknown tool: " ++ jsToStringV tool)

/-- Embeds `DemoClient.getSecret()`: posts `{tool: '/secret'}` to `/secret`. -/
def getSecret : OutRequest :=
  { endpoint := "/secret"
    body := .obj [("tool", .str "/secret")] }

/-- Embeds `DemoClient.submitAnswer(answer)`: posts
`{tool: '/answer', answer: String(answer)}` to `/answer`. -/
def submitAnswer (answer : JsVal) : OutRequest :=
  { endpoint := "/answer"
    body := .obj
      [("tool", .str "/answer"),
       ("answer", .str (jsToStringV answer))] }

/-- Embeds `DemoClient.dispatch(request)`: switches on `request.tool` over the
two-tool set; an unrecognized tool throws a plain `Error` and issues no
request. -/
def DemoClient.dispatch (request : Json) : Except String OutRequest :=
  match getField request "tool" with
  | some (.str "/secret") => .ok getSecret
  | some (.str "/answer") => .ok (submitAnswer (getField request "answer"))
  | tool => .error ("Unknown tool: " ++ jsToStringV tool)

/-- One `/products/list` response: the page's products and the `next_offset`
pagination cursor (`-1` when the catalog is exhausted). -/
structure Page where
  products : List Json
  next_offset : Int
deriving Inhabited

/-- Modelled from the spec: the remote store server's paginated product
listing is not part of this repository (the repository holds only the client
and its pagination loop). Per the spec, a listing over a finite catalog
returns a slice of the catalog at the requested offset and a `next_offset`
that is the following offset while products remain, and `-1` exactly when the
catalog is exhausted. -/
def serverPage (catalog : List Json) (limit : Nat) (offset : Int) : Page :=
  { products := (catalog.drop offset.toNat).take limit
    next_offset :=
      if offset.toNat + limit < catalog.length then ((offset.toNat + limit : Nat) : Int)
      else -1 }

/-- The pagination loop of the store example (`while (true) { ... }`): fetch
the page at `offset`, accumulate its products, stop when `next_offset === -1`,
otherwise continue from the returned `next_offset` with no client-side
validation. Fuel bounds the iteration count so the loop is total; `none` means
the fuel ran out before the loop stopped. -/
def paginateLoop (server : Int → Page) : Nat → Int → List Json → Option (List Json)
  | 0, _, _ => none
  | fuel + 1, offset, acc =>
    let result := server offset
    let acc' := acc ++ result.products
    if result.next_offset = -1 then some acc'
    else paginateLoop server fuel result.next_offset acc'

/-- The message of the error a request outcome raised (`Json.null` when the
request succeeded). -/
def thrownMessage : Except JsError Json → Json
  | .error (.api e) => e.message
  | .error (.plain m) => .str m
  | .ok _ => .null

/-- The `usage.k` field of an outgoing request's body. -/
def usageField (r : OutRequest) (k : String) : JsVal :=
  getField ((getField r.body "usage").getD .null) k

/-- When the `status` field is absent or numeric, the API-error guard of
`_request` holds exactly when the field is a number that is at least 400. -/
theorem apiErrorCond_iff (body : Json)
    (hstat : getField body "status" = none ∨ ∃ n : Int, getField body "status" = some (.num n)) :
    apiErrorCond body = true ↔ ∃ n : Int, getField body "status" = some (.num n) ∧ 400 ≤ n := by
  rcases hstat with h | ⟨n, h⟩
  · simp [apiErrorCond, h, truthyV]
  · simp only [apiErrorCond, h, truthyV, truthy, jsGE, toNumber, Bool.and_eq_true,
      bne_iff_ne, ne_eq, decide_eq_true_eq, Option.some.injEq, Json.num.injEq]
    constructor
    · rintro ⟨hne, hge⟩
      exact ⟨n, rfl, hge⟩
    · rintro ⟨m, rfl, hge⟩
      exact ⟨by omega, hge⟩

/-- Embeds `_request` on a parsed body: raise the structured exception when the guard
holds, otherwise return the body unchanged. -/
theorem request_success (body : Json) :
    requestCommon (.success body) =
      if apiErrorCond body then .error (.api (mkApiError body)) else .ok body := by
  by_cases h : apiErrorCond body <;>
    simp [requestCommon, requestTry, requestCatch, h]

/-- Against the finite-catalog server, the pagination loop finishes (returns
`some`) whenever the fuel exceeds the number of catalog entries not yet passed:
each iteration either sees `next_offset = -1` and stops, or advances the
offset by `limit ≥ 1`. -/
theorem paginateLoop_isSome (catalog : List Json) (limit : Nat) (hl : 1 ≤ limit) :
    ∀ (fuel : Nat) (offset : Int) (acc : List Json),
      catalog.length - offset.toNat < fuel →
      (paginateLoop (serverPage catalog limit) fuel offset acc).isSome = true := by
  intro fuel
  induction fuel with
  | zero => intro offset acc h; omega
  | succ n ih =>
    intro offset acc h
    by_cases hc : offset.toNat + limit < catalog.length
    · have hne : (((offset.toNat + limit : Nat) : Int)) ≠ -1 := by omega
      simp only [paginateLoop, serverPage, hc, if_true, hne, if_false]
      apply ih
      rw [Int.toNat_natCast]
      omega
    · simp [paginateLoop, serverPage, hc]

/-- The catch block of `_request` always yields an `ApiException`. -/
theorem requestCatch_api (e : JsError) : ∃ exc, requestCatch e = .api exc := by
  cases e <;> exact ⟨_, rfl⟩

/-- C1 counterexample: on the body `{status: 500, error: ""}` the raised
exception's message is `'API Error'`, not the body's (present, empty-string)
`error` field, so the message does not always equal the `error` field when that
field is present. -/
theorem C1_counterexample :
    thrownMessage (ERC3.request (.success (Json.obj [("status", .num 500), ("error", .str "")])))
      = .str "API Error"
    ∧ getField (Json.obj [("status", .num 500), ("error", .str "")]) "error" = some (.str "")
    ∧ Json.str "API Error" ≠ Json.str "" := by
  refine ⟨rfl, rfl, ?_⟩
  intro h
  injection h with h
  exact absurd h (by decide)

/-- C1 (amended): for every facade request whose parsed body's `status` field
is absent or numeric, the method raises `ApiException` iff the `status` field
is present and at least 400; the exception then carries the body's
`error`/`status`/`code` fields with `detail` the full serialized body, where
the message equals the `error` field when that field is truthy and defaults to
`'API Error'` when it is absent or falsy (e.g. an empty string); otherwise the
parsed body is returned unchanged; the three facades' response processing
agrees. -/
theorem C1_amended (body : Json)
    (hstat : getField body "status" = none ∨ ∃ n : Int, getField body "status" = some (.num n)) :
    ((∃ e, ERC3.request (.success body) = .error e) ↔
      ∃ n : Int, getField body "status" = some (.num n) ∧ 400 ≤ n)
    ∧ (∀ n : Int, getField body "status" = some (.num n) → 400 ≤ n →
        ERC3.request (.success body) = .error (.api
          { message := jsOr (getField body "error") (.str "API Error")
            status := getField body "status"
            code := getField body "code"
            detail := stringify body }))
    ∧ (∀ err : Json, getField body "error" = some err → truthy err = true →
        jsOr (getField body "error") (.str "API Error") = err)
    ∧ (truthyV (getField body "error") = false →
        jsOr (getField body "error") (.str "API Error") = .str "API Error")
    ∧ ((¬ ∃ n : Int, getField body "status" = some (.num n) ∧ 400 ≤ n) →
        ERC3.request (.success body) = .ok body)
    ∧ (∀ t, StoreClient.request t = ERC3.request t ∧ DemoClient.request t = ERC3.request t) := by
  have hiff := apiErrorCond_iff body hstat
  have hreq : ERC3.request (.success body) =
      if apiErrorCond body then .error (.api (mkApiError body)) else .ok body :=
    request_success body
  refine ⟨?_, ?_, ?_, ?_, ?_, fun t => ⟨rfl, rfl⟩⟩
  · rw [hreq]
    by_cases h : apiErrorCond body
    · simp only [h, if_true]
      exact ⟨fun _ => hiff.mp h, fun _ => ⟨_, rfl⟩⟩
    · simp only [h, Bool.false_eq_true, if_false]
      constructor
      · rintro ⟨e, he⟩
        exact absurd he (by simp)
      · rintro ⟨n, hn, hge⟩
        exact absurd (hiff.mpr ⟨n, hn, hge⟩) (by simp [h])
  · intro n hn hge
    have hc : apiErrorCond body = true := hiff.mpr ⟨n, hn, hge⟩
    rw [hreq, if_pos hc]
    rfl
  · intro err herr htr
    simp [jsOr, herr, htr]
  · intro hf
    cases herr : getField body "error" with
    | none => simp [jsOr]
    | some j =>
      have hj : truthy j = false := by simpa [truthyV, herr] using hf
      simp [jsOr, hj]
  · intro hno
    have hc : apiErrorCond body = false := by
      by_contra hcc
      exact hno (hiff.mp (by simpa using hcc))
    rw [hreq, hc]
    simp

/-- A server body declaring a 404 error, used to instantiate `C1_amended`. -/
def errBody404 : Json :=
  .obj [("status", .num 404), ("error", .str "Not found"), ("code", .str "NOT_FOUND")]

/-- Witness for C1 (amended) at the body
`{status: 404, error: 'Not found', code: 'NOT_FOUND'}`. -/
theorem C1_amended_witness :
    ERC3.request (.success errBody404) = .error (.api
      { message := jsOr (getField errBody404 "error") (.str "API Error")
        status := getField errBody404 "status"
        code := getField errBody404 "code"
        detail := stringify errBody404 }) := by
  exact (C1_amended errBody404 (Or.inr ⟨404, rfl⟩)).2.1 404 rfl (by norm_num)

/-- C2: any transport failure (network error, non-JSON body) is raised as an
`ApiException` with status 500 and code `REQUEST_FAILED` whose `detail` is the
original failure's message; every error a facade request surfaces is an
`ApiException` (the catch block rethrows `ApiException`s and wraps everything
else); the three facades' response processing agrees. -/
theorem C2_transport (t : TransportResult) (msg : String) :
    ERC3.request (.failure msg) = .error (.api
      { message := .str ("Request failed: " ++ msg)
        status := some (.num 500)
        code := some (.str "REQUEST_FAILED")
        detail := msg })
    ∧ (∀ e, ERC3.request t = .error e → ∃ exc, e = .api exc)
    ∧ StoreClient.request t = ERC3.request t
    ∧ DemoClient.request t = ERC3.request t := by
  refine ⟨rfl, ?_, rfl, rfl⟩
  intro e he
  unfold ERC3.request requestCommon at he
  cases hr : requestTry t with
  | ok r => rw [hr] at he; exact absurd he (by simp)
  | error e' =>
    rw [hr] at he
    obtain ⟨exc, hx⟩ := requestCatch_api e'
    injection he with h
    exact ⟨exc, h ▸ hx⟩

/-- Witness for C2 at the transport failure with message `'boom'`. -/
theorem C2_transport_witness :
    ∃ exc, (JsError.api
      { message := Json.str "Request failed: boom"
        status := some (.num 500)
        code := some (.str "REQUEST_FAILED")
        detail := "boom" }) = .api exc := by
  exact (C2_transport (.failure "boom") "boom").2.1 _ rfl

/-- The three token fields the `logLLM` body's `usage` object carries, each
the `||`-chain the source computes. -/
theorem usageField_eq (taskId model : String) (u : Usage) (d : Json) :
    usageField (logLLM taskId model u d) "prompt_tokens"
        = some (.num (jsOrNum u.prompt_tokens (jsOrNum u.input_tokens 0)))
    ∧ usageField (logLLM taskId model u d) "completion_tokens"
        = some (.num (jsOrNum u.completion_tokens (jsOrNum u.output_tokens 0)))
    ∧ usageField (logLLM taskId model u d) "total_tokens"
        = some (.num (jsOrNum u.total_tokens 0)) := ⟨rfl, rfl, rfl⟩

/-- C3 counterexample: with `usage = {prompt_tokens: 100, completion_tokens:
50}` (no `total_tokens`), the sent `total_tokens` is `0`, not the computed sum
`150`: `total_tokens` is defaulted to `0` when absent, never computed. -/
theorem C3_counterexample :
    (logLLM "t1" "gpt" { prompt_tokens := some 100, completion_tokens := some 50 } (.num 2)).body
      = Json.obj
          [("task_id", .str "t1"), ("model", .str "gpt"),
           ("usage", .obj
             [("prompt_tokens", .num 100), ("completion_tokens", .num 50),
              ("total_tokens", .num 0)]),
           ("duration_sec", .num 2)]
    ∧ (0 : Int) ≠ 100 + 50 := ⟨rfl, by decide⟩

/-- C3 (amended): `logLLM` accepts `usage` under either the
`{prompt_tokens, completion_tokens}` or the `{input_tokens, output_tokens}`
naming, sending `prompt_tokens`/`completion_tokens` from whichever naming is
present (a nonzero primary field wins, else the alternate naming, else 0);
`total_tokens` is sent as given when present and nonzero and as `0` otherwise
(it is not computed from the other fields); the duration travels under the
snake-case body field `duration_sec` regardless of the camelCase `durationSec`
argument name. -/
theorem C3_amended (taskId model : String) (u : Usage) (d : Json) :
    (logLLM taskId model u d).endpoint = "/tasks/log"
    ∧ getField (logLLM taskId model u d).body "duration_sec" = some d
    ∧ (∀ p : Int, u.prompt_tokens = some p → p ≠ 0 →
        usageField (logLLM taskId model u d) "prompt_tokens" = some (.num p))
    ∧ ((u.prompt_tokens = none ∨ u.prompt_tokens = some 0) → ∀ p : Int,
        u.input_tokens = some p → p ≠ 0 →
        usageField (logLLM taskId model u d) "prompt_tokens" = some (.num p))
    ∧ (∀ c : Int, u.completion_tokens = some c → c ≠ 0 →
        usageField (logLLM taskId model u d) "completion_tokens" = some (.num c))
    ∧ ((u.completion_tokens = none ∨ u.completion_tokens = some 0) → ∀ c : Int,
        u.output_tokens = some c → c ≠ 0 →
        usageField (logLLM taskId model u d) "completion_tokens" = some (.num c))
    ∧ (∀ t : Int, u.total_tokens = some t → t ≠ 0 →
        usageField (logLLM taskId model u d) "total_tokens" = some (.num t))
    ∧ ((u.total_tokens = none ∨ u.total_tokens = some 0) →
        usageField (logLLM taskId model u d) "total_tokens" = some (.num 0)) := by
  obtain ⟨hP, hC, hT⟩ := usageField_eq taskId model u d
  refine ⟨rfl, rfl, ?_, ?_, ?_, ?_, ?_, ?_⟩
  · intro p hp hne
    rw [hP]; simp [jsOrNum, hp, hne]
  · rintro (h | h) p hp hne <;>
      (rw [hP]; simp [jsOrNum, h, hp, hne])
  · intro c hc hne
    rw [hC]; simp [jsOrNum, hc, hne]
  · rintro (h | h) c hc hne <;>
      (rw [hC]; simp [jsOrNum, h, hc, hne])
  · intro t ht hne
    rw [hT]; simp [jsOrNum, ht, hne]
  · rintro (h | h) <;> (rw [hT]; simp [jsOrNum, h])

/-- Witness for C3 (amended) at
`usage = {input_tokens: 7, output_tokens: 3, total_tokens: 10}`. -/
theorem C3_amended_witness :
    usageField (logLLM "t1" "gpt"
        { input_tokens := some 7, output_tokens := some 3, total_tokens := some 10 }
        (.num 2)) "prompt_tokens" = some (.num 7) := by
  exact (C3_amended "t1" "gpt"
    { input_tokens := some 7, output_tokens := some 3, total_tokens := some 10 }
    (.num 2)).2.2.2.1 (Or.inl rfl) 7 rfl (by decide)

/-- C4: for every task identifier `X`, `startTask` and `completeTask` on the
bare string `X` and on the object `{task_id: X}` resolve to the same
identifier and produce identical outgoing bodies `{task_id: X}` to
`/tasks/start` and `/tasks/complete` respectively. -/
theorem C4_taskOrId (X : String) :
    startTask (.str X) = startTask (.obj [("task_id", .str X)])
    ∧ startTask (.str X) = { endpoint := "/tasks/start", body := .obj [("task_id", .str X)] }
    ∧ completeTask (.str X) = completeTask (.obj [("task_id", .str X)])
    ∧ completeTask (.str X)
        = { endpoint := "/tasks/complete", body := .obj [("task_id", .str X)] } := by
  refine ⟨?_, rfl, ?_, rfl⟩ <;> rfl

/-- C9: `viewTask` includes `since` as an additional body field exactly when
it is provided; when it is not, the body is exactly `{task_id}` and the
`since` field is absent (not sent as `null`). -/
theorem C9_viewTask (taskId : Json) (s : Json) :
    viewTask taskId (some s)
      = { endpoint := "/tasks/view", body := .obj [("task_id", taskId), ("since", s)] }
    ∧ viewTask taskId none
      = { endpoint := "/tasks/view", body := .obj [("task_id", taskId)] }
    ∧ getField (viewTask taskId none).body "since" = none := by
  exact ⟨rfl, rfl, rfl⟩

/-- C10: in `logLLM`'s usage normalization a token count of `0` is treated
like an absent field: `prompt_tokens` of `0` or missing falls back to a
nonzero `input_tokens`, `completion_tokens` of `0` or missing falls back to a
nonzero `output_tokens`, and a `total_tokens` of `0` or missing is sent
as `0`. -/
theorem C10_zero_fallback (taskId model : String) (u : Usage) (d : Json) :
    ((u.prompt_tokens = none ∨ u.prompt_tokens = some 0) → ∀ n : Int,
        u.input_tokens = some n → n ≠ 0 →
        usageField (logLLM taskId model u d) "prompt_tokens" = some (.num n))
    ∧ ((u.completion_tokens = none ∨ u.completion_tokens = some 0) → ∀ n : Int,
        u.output_tokens = some n → n ≠ 0 →
        usageField (logLLM taskId model u d) "completion_tokens" = some (.num n))
    ∧ ((u.total_tokens = none ∨ u.total_tokens = some 0) →
        usageField (logLLM taskId model u d) "total_tokens" = some (.num 0)) := by
  obtain ⟨hP, hC, hT⟩ := usageField_eq taskId model u d
  refine ⟨?_, ?_, ?_⟩
  · rintro (h | h) n hn hne <;>
      (rw [hP]; simp [jsOrNum, h, hn, hne])
  · rintro (h | h) n hn hne <;>
      (rw [hC]; simp [jsOrNum, h, hn, hne])
  · rintro (h | h) <;> (rw [hT]; simp [jsOrNum, h])

/-- Witness for C10 at `usage = {prompt_tokens: 0, input_tokens: 42}`. -/
theorem C10_zero_fallback_witness :
    usageField (logLLM "t9" "m" { prompt_tokens := some 0, input_tokens := some 42 }
      (.num 1)) "prompt_tokens" = some (.num 42) := by
  exact (C10_zero_fallback "t9" "m"
    { prompt_tokens := some 0, input_tokens := some 42 } (.num 1)).1
    (Or.inr rfl) 42 rfl (by decide)

/-- C5: over the seven store tools and the two demo tools, `dispatch` on a
request whose `tool` field names a recognized tool issues exactly the request
the corresponding facade method issues on the fields taken from the request
(the methods' defaults applying to absent fields); on any other tool string it
raises the plain `Unknown tool` error — a `String`, never the `ApiException`
type — and produces no outgoing request. -/
theorem C5_dispatch (req : Json) :
    (getField req "tool" = some (.str "/products/list") →
      StoreClient.dispatch req
        = .ok (listProducts (getField req "offset") (getField req "limit")))
    ∧ (getField req "tool" = some (.str "/basket/view") →
      StoreClient.dispatch req = .ok viewBasket)
    ∧ (getField req "tool" = some (.str "/basket/add") →
      StoreClient.dispatch req
        = .ok (addToBasket (getField req "sku") (getField req "quantity")))
    ∧ (getField req "tool" = some (.str "/basket/remove") →
      StoreClient.dispatch req
        = .ok (removeFromBasket (getField req "sku") (getField req "quantity")))
    ∧ (getField req "tool" = some (.str "/basket/checkout") →
      StoreClient.dispatch req = .ok checkout)
    ∧ (getField req "tool" = some (.str "/coupon/apply") →
      StoreClient.dispatch req = .ok (applyCoupon (getField req "coupon")))
    ∧ (getField req "tool" = some (.str "/coupon/remove") →
      StoreClient.dispatch req = .ok removeCoupon)
    ∧ (getField req "tool" = some (.str "/secret") →
      DemoClient.dispatch req = .ok getSecret)
    ∧ (getField req "tool" = some (.str "/answer") →
      DemoClient.dispatch req = .ok (submitAnswer (getField req "answer")))
    ∧ (∀ s : String, getField req "tool" = some (.str s) →
        s ∉ ["/products/list", "/basket/view", "/basket/add", "/basket/remove",
             "/basket/checkout", "/coupon/apply", "/coupon/remove"] →
        StoreClient.dispatch req = .error ("Unknown tool: " ++ s))
    ∧ (∀ s : String, getField req "tool" = some (.str s) → s ∉ ["/secret", "/answer"] →
        DemoClient.dispatch req = .error ("Unknown tool: " ++ s)) := by
  refine ⟨?_, ?_, ?_, ?_, ?_, ?_, ?_, ?_, ?_, ?_, ?_⟩
  · intro h; rw [StoreClient.dispatch.eq_def, h]; rfl
  · intro h; rw [StoreClient.dispatch.eq_def, h]; rfl
  · intro h; rw [StoreClient.dispatch.eq_def, h]; rfl
  · intro h; rw [StoreClient.dispatch.eq_def, h]; rfl
  · intro h; rw [StoreClient.dispatch.eq_def, h]; rfl
  · intro h; rw [StoreClient.dispatch.eq_def, h]; rfl
  · intro h; rw [StoreClient.dispatch.eq_def, h]; rfl
  · intro h; rw [DemoClient.dispatch.eq_def, h]; rfl
  · intro h; rw [DemoClient.dispatch.eq_def, h]; rfl
  · intro s hs hnot
    rw [StoreClient.dispatch.eq_def, hs]
    split <;> simp_all [jsToStringV, jsToString]
  · intro s hs hnot
    rw [DemoClient.dispatch.eq_def, hs]
    split <;> simp_all [jsToStringV, jsToString]

/-- Witness for C5: dispatching `/basket/add` matches the direct
`addToBasket` call, and an unrecognized tool string raises the plain
`Unknown tool` error. -/
theorem C5_dispatch_witness :
    StoreClient.dispatch
        (.obj [("tool", .str "/basket/add"), ("sku", .str "A1"), ("quantity", .num 2)])
      = .ok (addToBasket (some (.str "A1")) (some (.num 2)))
    ∧ DemoClient.dispatch (.obj [("tool", .str "/frobnicate")])
      = .error "Unknown tool: /frobnicate" := by
  constructor
  · exact (C5_dispatch _).2.2.1 rfl
  · exact (C5_dispatch _).2.2.2.2.2.2.2.2.2.2 "/frobnicate" rfl (by decide)

/-- C6: every store operation's request body carries a `tool` field exactly
equal to the operation's endpoint path suffix, and `StoreClient._request`
posts to the base URL followed by `/store/`, the task ID, and that suffix. -/
theorem C6_store_wire (baseUrl taskId : String) (offset limit sku quantity coupon : JsVal) :
    getField (listProducts offset limit).body "tool"
        = some (.str (listProducts offset limit).endpoint)
    ∧ getField viewBasket.body "tool" = some (.str viewBasket.endpoint)
    ∧ getField (addToBasket sku quantity).body "tool"
        = some (.str (addToBasket sku quantity).endpoint)
    ∧ getField (removeFromBasket sku quantity).body "tool"
        = some (.str (removeFromBasket sku quantity).endpoint)
    ∧ getField checkout.body "tool" = some (.str checkout.endpoint)
    ∧ getField (applyCoupon coupon).body "tool" = some (.str (applyCoupon coupon).endpoint)
    ∧ getField removeCoupon.body "tool" = some (.str removeCoupon.endpoint)
    ∧ storeUrl baseUrl taskId (listProducts offset limit).endpoint
        = baseUrl ++ "/store/" ++ taskId ++ "/products/list"
    ∧ storeUrl baseUrl taskId viewBasket.endpoint
        = baseUrl ++ "/store/" ++ taskId ++ "/basket/view"
    ∧ storeUrl baseUrl taskId (addToBasket sku quantity).endpoint
        = baseUrl ++ "/store/" ++ taskId ++ "/basket/add"
    ∧ storeUrl baseUrl taskId (removeFromBasket sku quantity).endpoint
        = baseUrl ++ "/store/" ++ taskId ++ "/basket/remove"
    ∧ storeUrl baseUrl taskId checkout.endpoint
        = baseUrl ++ "/store/" ++ taskId ++ "/basket/checkout"
    ∧ storeUrl baseUrl taskId (applyCoupon coupon).endpoint
        = baseUrl ++ "/store/" ++ taskId ++ "/coupon/apply"
    ∧ storeUrl baseUrl taskId removeCoupon.endpoint
        = baseUrl ++ "/store/" ++ taskId ++ "/coupon/remove" :=
  ⟨rfl, rfl, rfl, rfl, rfl, rfl, rfl, rfl, rfl, rfl, rfl, rfl, rfl, rfl⟩

/-- C7: one pagination step stops exactly when the response's `next_offset`
equals `-1` — the sole termination signal — and otherwise feeds the returned
`next_offset` (whatever it is) to the next request unvalidated; against the
finite-catalog server the loop started at offset 0 terminates within
`catalog.length + 1` calls. -/
theorem C7_pagination (server : Int → Page) (fuel : Nat) (offset : Int)
    (acc : List Json) (catalog : List Json) (limit : Nat) (hl : 1 ≤ limit) :
    (paginateLoop server (fuel + 1) offset acc =
      if (server offset).next_offset = -1 then some (acc ++ (server offset).products)
      else paginateLoop server fuel (server offset).next_offset
             (acc ++ (server offset).products))
    ∧ ∃ r, paginateLoop (serverPage catalog limit) (catalog.length + 1) 0 [] = some r := by
  constructor
  · rfl
  · have h := paginateLoop_isSome catalog limit hl (catalog.length + 1) 0 [] (by simp)
    exact Option.isSome_iff_exists.mp h

/-- Witness for C7 at a three-product catalog with page size 2. -/
theorem C7_pagination_witness :
    (1 : Nat) ≤ 2
    ∧ ∃ r, paginateLoop (serverPage [Json.str "p1", .str "p2", .str "p3"] 2) 4 0 []
        = some r := by
  refine ⟨by decide, ?_⟩
  exact (C7_pagination (serverPage [Json.str "p1", .str "p2", .str "p3"] 2) 0 0 []
    [Json.str "p1", .str "p2", .str "p3"] 2 (by decide)).2

/-- C8: constructing the core client fails with the `API key is required`
error exactly when neither the options nor the environment supply a truthy API
key; otherwise it succeeds with that key, and the base URL defaults to the
production host when not supplied. The resulting configuration is a value the
library never rewrites (no method assigns to it after construction). -/
theorem C8_constructor (optApiKey optBaseUrl envKey : Option String) :
    ((jsOrStrV optApiKey envKey = none ∨ jsOrStrV optApiKey envKey = some "") →
      mkERC3 optApiKey optBaseUrl envKey
        = .error "API key is required. Set ERC3_API_KEY env var or pass apiKey option.")
    ∧ (∀ k : String, jsOrStrV optApiKey envKey = some k → k ≠ "" →
      mkERC3 optApiKey optBaseUrl envKey
        = .ok { apiKey := k, baseUrl := jsOrStr optBaseUrl defaultBaseUrl })
    ∧ (optBaseUrl = none → jsOrStr optBaseUrl defaultBaseUrl = defaultBaseUrl)
    ∧ (optApiKey = none → envKey = none →
      mkERC3 optApiKey optBaseUrl envKey
        = .error "API key is required. Set ERC3_API_KEY env var or pass apiKey option.") := by
  refine ⟨?_, ?_, ?_, ?_⟩
  · rintro (h | h) <;> (simp [mkERC3, h, truthyV, truthy]; try decide)
  · intro k hk hne
    simp [mkERC3, hk, truthyV, truthy, String.isEmpty_iff, hne]
  · intro h; simp [jsOrStr, h]
  · intro h1 h2; simp [mkERC3, jsOrStrV, h1, h2, truthyV]

/-- Witness for C8: an explicit API key and no base URL yield the key with the
default production host. -/
theorem C8_constructor_witness :
    mkERC3 (some "key-1") none none
      = .ok { apiKey := "key-1", baseUrl := jsOrStr none defaultBaseUrl } := by
  exact (C8_constructor (some "key-1") none none).2.1 "key-1" rfl (by decide)
